import Mathlib

/-!
Verification of the per-user conversational session engine of the
docusearchbot repository (src/main.py), as a shallow embedding in Lean 4.
Timestamps (Python floats from `time.time()` / `datetime`) are modelled as
rationals; byte counts and indices as naturals; Python `None`-able values as
`Option`; Python truthiness of strings is modelled explicitly.
-/

namespace DocuBot

/-- A paper entry as built by `search_arxiv` (main.py lines 401-410); the
claims only inspect the title and canonical entry link. -/
structure Paper where
  title : String
  link : String
deriving DecidableEq

/-- `RATE_LIMIT_REQUESTS = 5` (main.py line 54). -/
def RATE_LIMIT_REQUESTS : Nat := 5

/-- `RATE_LIMIT_WINDOW = 60` seconds (main.py line 55). -/
def RATE_LIMIT_WINDOW : ℚ := 60

/-- `check_rate_limit` (main.py lines 275-284): prune timestamps older than
the window, reject when the pruned count reaches the cap, otherwise append
the current time and admit.  The first component is the per-user timestamp
list after the call (`user_request_counts[user_id]`), the second is the
returned boolean. -/
def check_rate_limit (times : List ℚ) (now : ℚ) : List ℚ × Bool :=
  let pruned := times.filter (fun t => now - t < RATE_LIMIT_WINDOW)
  if RATE_LIMIT_REQUESTS ≤ pruned.length then (pruned, false)
  else (pruned ++ [now], true)

/-- Python `str.isspace` characters stripped by `str.strip()` (the ASCII
whitespace relevant here). -/
def py_isspace (c : Char) : Bool :=
  c == ' ' || c == '\t' || c == '\n' || c == '\r' || c == '\x0b' || c == '\x0c'

/-- Python `text.strip()` on a code-point list. -/
def py_strip (s : List Char) : List Char :=
  ((s.dropWhile py_isspace).reverse.dropWhile py_isspace).reverse

/-- The character class removed by `re.sub(r"[<>;{}]", "", ...)`
(main.py line 270). -/
def sanitize_class : List Char := ['<', '>', ';', '\x7b', '\x7d']

/-- `sanitize_input` (main.py lines 268-271): strip surrounding whitespace,
delete the characters `< > ; \x7b \x7d`, truncate to 500 code points. -/
def sanitize_input (s : List Char) : List Char :=
  ((py_strip s).filter (fun c => !(sanitize_class.contains c))).take 500

/-- Python truthiness of an optional string: `None` and `""` are falsy. -/
def py_truthy (q : Option String) : Bool :=
  match q with
  | none => false
  | some s => !(s.isEmpty)

/-- The in-memory per-user state (`UserState`, main.py lines 288-318),
restricted to the fields the claims touch.  `timeout_job` records whether a
scheduler handle is currently held (the handle itself is opaque). -/
structure UserState where
  state : Option String
  query : Option String
  current_page : Nat
  total_results : Nat
  load_more_timestamp : Option ℚ
  load_more_message_id : Option Nat
  timeout_job : Bool
deriving DecidableEq

/-- `self.results_per_page = 5` (main.py line 291), never reassigned. -/
def results_per_page : Nat := 5

/-- `LOAD_MORE_TIMEOUT = 300` seconds (main.py line 351). -/
def LOAD_MORE_TIMEOUT : ℚ := 300

/-- `TELEGRAM_FILE_SIZE_LIMIT = 20 * 1024 * 1024` bytes (main.py line 352). -/
def TELEGRAM_FILE_SIZE_LIMIT : Nat := 20 * 1024 * 1024

/-- `max_single_download_mb = 100` (main.py line 1145). -/
def max_single_download_mb : Nat := 100

/-- `cleanup_load_more_state` (main.py lines 884-901): cancel the pending
job and null both the armed timestamp and the affordance message id. -/
def cleanup_load_more_state (s : UserState) : UserState :=
  { s with timeout_job := false, load_more_timestamp := none,
           load_more_message_id := none }

/-- Result of the scheduled timeout callback. -/
structure TimeoutResult where
  states : Option UserState
  fired : Bool
  saved : Bool
deriving DecidableEq

/-- `send_load_more_timeout_message` (main.py lines 904-928): if the user
still has a state whose `load_more_timestamp` is set and at least
`LOAD_MORE_TIMEOUT` seconds old, and the job carries a truthy chat id, send
the reminder, null the job handle, the timestamp and the message id, and
save the state. -/
def send_load_more_timeout_message (states : Option UserState) (chatId : Int)
    (now : ℚ) : TimeoutResult :=
  match states with
  | none => ⟨none, false, false⟩
  | some st =>
    match st.load_more_timestamp with
    | none => ⟨some st, false, false⟩
    | some t =>
      if LOAD_MORE_TIMEOUT ≤ now - t then
        if chatId ≠ 0 then
          ⟨some { st with timeout_job := false, load_more_timestamp := none,
                          load_more_message_id := none }, true, true⟩
        else ⟨some st, false, false⟩
      else ⟨some st, false, false⟩

/-- Reply emitted by the Load More button handler.  `attributeError` is the
unhandled-exception path: with no session, the log f-string at main.py line
948 evaluates `user_states.get(user_id, 'None').query` — `.query` on the
default string `'None'` — and raises before any reply is sent. -/
inductive LoadMoreReply where
  | sessionExpired
  | proceeded
  | attributeError
deriving DecidableEq

/-- `handle_load_more` (main.py lines 931-961), the validation and mutation
prefix of the handler: with no session the log statement at line 948 raises
`AttributeError` before the reply, so nothing is sent and nothing mutated;
with a session whose query is falsy, reply "session expired" without
mutation; otherwise increment `current_page` and save.  The pressed message
id is read (line 937) but only logged: it takes no part in the
validation. -/
def handle_load_more (states : Option UserState) (messageId : Nat) :
    Option UserState × LoadMoreReply :=
  match states with
  | none => (none, .attributeError)
  | some st =>
    if py_truthy st.query = false then (some st, .sessionExpired)
    else (some { st with current_page := st.current_page + 1 }, .proceeded)

/-- The pagination slice of `send_paper_results` (main.py lines 1506-1516
together with the `has_more` computation of lines 1549-1551): the visible
slice of the fetched list and whether a further page exists.  The early
"no more papers" return is rendered as the empty slice with `has_more`
false. -/
def slice_for_page (papers : List Paper) (page rpp : Nat)
    (is_load_more : Bool) : List Paper × Bool :=
  if is_load_more = true ∧ 0 < page then
    let start := rpp * page
    if papers.length ≤ start then ([], false)
    else ((papers.drop start).take rpp, decide (rpp * (page + 1) < papers.length))
  else (papers.take rpp, decide (rpp * (page + 1) < papers.length))

/-- Outcome of one `send_paper_results` run. -/
inductive SPROutcome where
  | searchErr
  | noPapers
  | noMorePapers
  | served
deriving DecidableEq

/-- Observable result of `send_paper_results`: the user state afterwards,
the papers shown, the `max_results` passed to the provider, and which
reply path was taken. -/
structure SPRResult where
  finalState : UserState
  shown : List Paper
  requested : Nat
  outcome : SPROutcome
deriving DecidableEq

/-- `send_paper_results` (main.py lines 1456-1584): on a fresh search reset
the page to 0, record the query and clear any Load More state; fetch
`results_per_page * (page + 2)` results; dispatch on provider error, empty
list, exhausted continuation; otherwise slice the visible page, record the
total on a fresh search, and arm the timeout (setting
`load_more_timestamp`) when a full page was shown and more results remain.
`search n = none` models the error-dict return of `search_arxiv`. -/
def send_paper_results (s : UserState) (q : String) (is_load_more : Bool)
    (now : ℚ) (search : Nat → Option (List Paper)) : SPRResult :=
  let s1 := if is_load_more then s
            else cleanup_load_more_state
                   { s with current_page := 0, query := some q }
  let page := s1.current_page
  let max_results := results_per_page * (page + 2)
  match search max_results with
  | none => ⟨s1, [], max_results, .searchErr⟩
  | some papers =>
    if papers.isEmpty then ⟨s1, [], max_results, .noPapers⟩
    else if is_load_more = true ∧ 0 < page ∧
            papers.length ≤ results_per_page * page then
      ⟨s1, [], max_results, .noMorePapers⟩
    else
      let papers_to_show := (slice_for_page papers page results_per_page is_load_more).1
      let s2 := if is_load_more then s1
                else { s1 with total_results := papers.length }
      let s3 := if papers_to_show.length = results_per_page ∧
                   (page + 1) * results_per_page < papers.length
                then { s2 with load_more_timestamp := some now, timeout_job := true }
                else s2
      ⟨s3, papers_to_show, max_results, .served⟩

/-- Fuel-driven engine for Python `str.replace(old, new)`: replace each
leftmost, non-overlapping occurrence.  Fuel bounded by the string length
keeps the recursion structural. -/
def replace_go (fuel : Nat) (pat rep : List Char) (s : List Char) : List Char :=
  match fuel, s with
  | 0, s => s
  | Nat.succ _, [] => []
  | Nat.succ fuel, c :: rest =>
    if pat ≠ [] ∧ pat = (c :: rest).take pat.length then
      rep ++ replace_go fuel pat rep ((c :: rest).drop pat.length)
    else c :: replace_go fuel pat rep rest

/-- Python `link.replace("abs", "pdf") + ".pdf"` (main.py line 1268): the
document URL derived from a paper's canonical entry link. -/
def pdf_url (link : String) : String :=
  ⟨replace_go link.data.length "abs".data "pdf".data link.data ++ ".pdf".data⟩

/-- The daily-quota comparison of `download_paper` (main.py lines
1142-1147): `total_bytes / (1024 * 1024) >= 2048` with true division. -/
def quota_hit (totalBytes : Nat) : Bool :=
  decide ((2048 : ℚ) ≤ (totalBytes : ℚ) / (1024 * 1024))

/-- Outcome of one `download_paper` run. -/
inductive DLOutcome where
  | quotaLimit
  | sessionExpired
  | noPapers
  | searchErr
  | fileTooLarge (url : String)
  | exceedsSingleLimit
  | sent (url : String)
deriving DecidableEq

/-- Observable result of `download_paper`: the reply path, the day's
download ledger (the `pdf_downloads` rows' `file_size` column) afterwards,
whether the provider was called, and with what `max_results`. -/
structure DLResult where
  outcome : DLOutcome
  ledger : List Nat
  fetched : Bool
  requested : Nat
deriving DecidableEq

/-- `download_paper` (main.py lines 1091-1453), the decision pipeline in
source order: daily-quota gate (lines 1142-1161), session/query validation
(1174-1192), early index check against `total_results` (1218-1226), fresh
provider fetch of `paper_index + 1` results (1231-1254), late index check
(1257-1265), PDF-URL derivation and size probe (1268, 1298-1331), the
platform 20 MB ceiling (1334-1342), the 100 MB single-file ceiling
(1344-1351), and on success the `pdf_downloads` insert (1383-1395).
`probe url` is the byte size the HEAD probe reports for `url`. -/
def download_paper (ledger : List Nat) (states : Option UserState)
    (paperIndex : Nat) (search : Nat → Option (List Paper))
    (probe : String → Nat) : DLResult :=
  if quota_hit ledger.sum then ⟨.quotaLimit, ledger, false, 0⟩
  else
    match states with
    | none => ⟨.sessionExpired, ledger, false, 0⟩
    | some st =>
      if py_truthy st.query = false then ⟨.sessionExpired, ledger, false, 0⟩
      else if 0 < st.total_results ∧ st.total_results ≤ paperIndex then
        ⟨.noPapers, ledger, false, 0⟩
      else
        match search (paperIndex + 1) with
        | none => ⟨.searchErr, ledger, true, paperIndex + 1⟩
        | some papers =>
          if h : paperIndex < papers.length then
            if TELEGRAM_FILE_SIZE_LIMIT < probe (pdf_url (papers.get ⟨paperIndex, h⟩).link) then
              ⟨.fileTooLarge (pdf_url (papers.get ⟨paperIndex, h⟩).link),
               ledger, true, paperIndex + 1⟩
            else if max_single_download_mb * 1024 * 1024
                < probe (pdf_url (papers.get ⟨paperIndex, h⟩).link) then
              ⟨.exceedsSingleLimit, ledger, true, paperIndex + 1⟩
            else ⟨.sent (pdf_url (papers.get ⟨paperIndex, h⟩).link),
                  ledger ++ [probe (pdf_url (papers.get ⟨paperIndex, h⟩).link)],
                  true, paperIndex + 1⟩
          else ⟨.noPapers, ledger, true, paperIndex + 1⟩

/-- C1: for every fetched result list, page index ≥ 0 and page size > 0,
the first page of a new query shows the first `page_size` items with
`has_more` true iff more than `page_size` results came back; a continuation
page with `page > 0` whose offset `page_size * page` is past the end yields
the empty slice with `has_more` false, and otherwise the slice
`results[page_size*page : page_size*page + page_size]` with `has_more` true
iff `page_size * (page+1) < len(results)`. -/
theorem C1_pagination (papers : List Paper) (page rpp : Nat)
    (hrpp : 0 < rpp) (hpage : 0 < page) :
    ((slice_for_page papers 0 rpp false).1 = papers.take rpp
      ∧ ((slice_for_page papers 0 rpp false).2 = true ↔ rpp < papers.length))
    ∧ (papers.length ≤ rpp * page →
        slice_for_page papers page rpp true = ([], false))
    ∧ (rpp * page < papers.length →
        (slice_for_page papers page rpp true).1
            = (papers.drop (rpp * page)).take rpp
          ∧ ((slice_for_page papers page rpp true).2 = true
              ↔ rpp * (page + 1) < papers.length)) := by
  refine ⟨⟨?_, ?_⟩, ?_, ?_⟩
  · simp [slice_for_page]
  · simp [slice_for_page]
  · intro hle
    simp [slice_for_page, hpage, hle]
  · intro hlt
    simp [slice_for_page, hpage, Nat.not_le.mpr hlt, Nat.not_lt.mpr (Nat.le_of_lt hlt)]

/-- C1 witness at a concrete input: ten papers, page 1, page size 5. -/
def c1_papers : List Paper :=
  [⟨"a0", "l0"⟩, ⟨"a1", "l1"⟩, ⟨"a2", "l2"⟩, ⟨"a3", "l3"⟩, ⟨"a4", "l4"⟩,
   ⟨"a5", "l5"⟩, ⟨"a6", "l6"⟩, ⟨"a7", "l7"⟩, ⟨"a8", "l8"⟩, ⟨"a9", "l9"⟩]

/-- C1 witness: the continuation slice of the concrete ten-paper list at
page 1, page size 5, is items 5-9, with no further page. -/
theorem C1_pagination_witness :
    (slice_for_page c1_papers 1 5 true).1 = (c1_papers.drop 5).take 5
    ∧ ((slice_for_page c1_papers 1 5 true).2 = true ↔ 5 * (1 + 1) < c1_papers.length) :=
  (C1_pagination c1_papers 1 5 (by decide) (by decide)).2.2 (by decide)

/-- C2: from an empty window, five admissions at nondecreasing times all
within one window are each recorded and admitted; a sixth check inside the
same window is rejected and records nothing; a check made once the window
has elapsed past the oldest admitted timestamp is admitted again; and in
general a call admits iff the count pruned to the window is below the cap. -/
theorem C2_rate_limiter (t1 t2 t3 t4 t5 t6 t7 : ℚ) (ts : List ℚ) (now : ℚ)
    (h12 : t1 ≤ t2) (h23 : t2 ≤ t3) (h34 : t3 ≤ t4) (h45 : t4 ≤ t5)
    (h56 : t5 ≤ t6) (hwin : t6 - t1 < RATE_LIMIT_WINDOW)
    (helapsed : RATE_LIMIT_WINDOW ≤ t7 - t1) :
    check_rate_limit [] t1 = ([t1], true)
    ∧ check_rate_limit [t1] t2 = ([t1, t2], true)
    ∧ check_rate_limit [t1, t2] t3 = ([t1, t2, t3], true)
    ∧ check_rate_limit [t1, t2, t3] t4 = ([t1, t2, t3, t4], true)
    ∧ check_rate_limit [t1, t2, t3, t4] t5 = ([t1, t2, t3, t4, t5], true)
    ∧ check_rate_limit [t1, t2, t3, t4, t5] t6 = ([t1, t2, t3, t4, t5], false)
    ∧ (check_rate_limit [t1, t2, t3, t4, t5] t7).2 = true
    ∧ ((check_rate_limit ts now).2 = true
        ↔ (ts.filter (fun t => now - t < RATE_LIMIT_WINDOW)).length
            < RATE_LIMIT_REQUESTS) := by
  have k21 : t2 - t1 < RATE_LIMIT_WINDOW := by linarith
  have k31 : t3 - t1 < RATE_LIMIT_WINDOW := by linarith
  have k32 : t3 - t2 < RATE_LIMIT_WINDOW := by linarith
  have k41 : t4 - t1 < RATE_LIMIT_WINDOW := by linarith
  have k42 : t4 - t2 < RATE_LIMIT_WINDOW := by linarith
  have k43 : t4 - t3 < RATE_LIMIT_WINDOW := by linarith
  have k51 : t5 - t1 < RATE_LIMIT_WINDOW := by linarith
  have k52 : t5 - t2 < RATE_LIMIT_WINDOW := by linarith
  have k53 : t5 - t3 < RATE_LIMIT_WINDOW := by linarith
  have k54 : t5 - t4 < RATE_LIMIT_WINDOW := by linarith
  have k61 : t6 - t1 < RATE_LIMIT_WINDOW := by linarith
  have k62 : t6 - t2 < RATE_LIMIT_WINDOW := by linarith
  have k63 : t6 - t3 < RATE_LIMIT_WINDOW := by linarith
  have k64 : t6 - t4 < RATE_LIMIT_WINDOW := by linarith
  have k65 : t6 - t5 < RATE_LIMIT_WINDOW := by linarith
  have k71 : ¬(t7 - t1 < RATE_LIMIT_WINDOW) := not_lt.mpr helapsed
  refine ⟨?_, ?_, ?_, ?_, ?_, ?_, ?_, ?_⟩
  · simp [check_rate_limit, RATE_LIMIT_REQUESTS]
  · simp [check_rate_limit, RATE_LIMIT_REQUESTS, List.filter, k21]
  · simp [check_rate_limit, RATE_LIMIT_REQUESTS, List.filter, k31, k32]
  · simp [check_rate_limit, RATE_LIMIT_REQUESTS, List.filter, k41, k42, k43]
  · simp [check_rate_limit, RATE_LIMIT_REQUESTS, List.filter, k51, k52, k53, k54]
  · simp [check_rate_limit, RATE_LIMIT_REQUESTS, List.filter, k61, k62, k63, k64, k65]
  · have hfil : List.filter (fun t => decide (t7 - t < RATE_LIMIT_WINDOW)) [t1, t2, t3, t4, t5]
        = List.filter (fun t => decide (t7 - t < RATE_LIMIT_WINDOW)) [t2, t3, t4, t5] := by
      rw [List.filter_cons_of_neg]
      simpa using k71
    have hlen : (List.filter (fun t => decide (t7 - t < RATE_LIMIT_WINDOW)) [t2, t3, t4, t5]).length ≤ 4 := by
      simpa using List.length_filter_le (fun t => decide (t7 - t < RATE_LIMIT_WINDOW)) [t2, t3, t4, t5]
    simp only [check_rate_limit, hfil]
    rw [if_neg]
    simp only [RATE_LIMIT_REQUESTS]
    omega
  · simp only [check_rate_limit]
    split
    · rename_i hcond
      simp only [RATE_LIMIT_REQUESTS] at hcond ⊢
      simp
      omega
    · rename_i hcond
      simp only [RATE_LIMIT_REQUESTS] at hcond ⊢
      simp
      omega

/-- C2 witness: concrete timestamps 0,1,2,3,4 admitted, a sixth at 5
rejected without being recorded, and a check at 60 admitted again. -/
theorem C2_rate_limiter_witness :
    check_rate_limit [(0 : ℚ), 1, 2, 3, 4] 5 = ([0, 1, 2, 3, 4], false)
    ∧ (check_rate_limit [(0 : ℚ), 1, 2, 3, 4] 60).2 = true := by
  have h := C2_rate_limiter 0 1 2 3 4 5 60 [] 0 (by norm_num) (by norm_num)
    (by norm_num) (by norm_num) (by norm_num)
    (by norm_num [RATE_LIMIT_WINDOW]) (by norm_num [RATE_LIMIT_WINDOW])
  exact ⟨h.2.2.2.2.2.1, h.2.2.2.2.2.2.1⟩

/-- A session that has served page 1 of an active query, with the Load More
affordance recorded on message 100. -/
def c3_state : UserState :=
  ⟨none, some "deep learning", 1, 10, some 0, some 100, true⟩

/-- C3 counterexample: with an active query and stored affordance message
id 100, a press carrying the mismatched (stale) message id 99 is not
rejected as "session expired"; it mutates the session by incrementing
`current_page`, and replaying the same stale press increments it again. -/
theorem C3_counterexample :
    (handle_load_more (some c3_state) 99).2 ≠ LoadMoreReply.sessionExpired
    ∧ (handle_load_more (some c3_state) 99).1
        = some { c3_state with current_page := 2 }
    ∧ (handle_load_more ((handle_load_more (some c3_state) 99).1) 99).1
        = some { c3_state with current_page := 3 } := by
  refine ⟨by decide, by decide, by decide⟩

/-- C3 amended: the handler accepts a Load More press whenever the user has
a session with a truthy active query, without comparing the pressed message
id to the stored `load_more_message_id`; a missing session raises an
unhandled `AttributeError` in the log statement before any reply, so no
"session expired" reply is sent and nothing is mutated; a session with a
falsy query yields "session expired" without mutation; consequently
replaying the same stale press after the session advanced a page is
accepted again and increments `current_page` a second time. -/
theorem C3_amended (s : UserState) (messageId messageId2 : Nat) :
    handle_load_more none messageId = (none, LoadMoreReply.attributeError)
    ∧ (py_truthy s.query = false →
        handle_load_more (some s) messageId = (some s, LoadMoreReply.sessionExpired))
    ∧ (py_truthy s.query = true →
        handle_load_more (some s) messageId
          = (some { s with current_page := s.current_page + 1 }, LoadMoreReply.proceeded)
        ∧ (handle_load_more ((handle_load_more (some s) messageId).1) messageId2).1
          = some { s with current_page := s.current_page + 2 }) := by
  refine ⟨rfl, ?_, ?_⟩
  · intro h
    simp [handle_load_more, h]
  · intro h
    simp [handle_load_more, h]

/-- C3 witness: the amended behaviour at the concrete session `c3_state`
with two presses carrying message id 7. -/
theorem C3_amended_witness :
    handle_load_more (some c3_state) 7
      = (some { c3_state with current_page := c3_state.current_page + 1 },
         LoadMoreReply.proceeded) :=
  ((C3_amended c3_state 7 7).2.2 (by decide)).1

/-- A freshly created session (all fields at their defaults). -/
def c4_state0 : UserState := ⟨none, none, 0, 0, none, none, false⟩

/-- A provider returning ten papers for any requested count. -/
def c4_search : Nat → Option (List Paper) :=
  fun _ => some (List.replicate 10 ⟨"t", "l"⟩)

/-- C4 counterexample: serving the first page of a ten-result query arms
the affordance by setting `load_more_timestamp`, but the code never assigns
`load_more_message_id`, so afterwards the timestamp is non-null while the
message id is null — the both-null-iff-both-set invariant fails. -/
theorem C4_counterexample :
    ¬(((send_paper_results c4_state0 "q" false 0 c4_search).finalState.load_more_timestamp = none)
       ↔ ((send_paper_results c4_state0 "q" false 0 c4_search).finalState.load_more_message_id = none)) := by
  norm_num [send_paper_results, cleanup_load_more_state, slice_for_page,
    results_per_page, c4_state0, c4_search]
  exact Option.some_ne_none 0

/-- The timeout callback never assigns `load_more_message_id` a value. -/
theorem timeout_keeps_message_id_none (s : UserState) (chatId : Int) (now : ℚ)
    (h : s.load_more_message_id = none) :
    (send_load_more_timeout_message (some s) chatId now).states.map
        UserState.load_more_message_id = some none := by
  rcases hst : s.load_more_timestamp with _ | t
  · simp [send_load_more_timeout_message, hst, h]
  · simp only [send_load_more_timeout_message, hst]
    by_cases h1 : LOAD_MORE_TIMEOUT ≤ now - t
    · by_cases h2 : chatId = 0
      · simp [h1, h2, h]
      · simp [h1, h2, h]
    · simp [h1, h]

/-- A fired timeout callback leaves the armed timestamp cleared. -/
theorem timeout_fired_clears_timestamp (s : UserState) (chatId : Int) (now : ℚ)
    (hf : (send_load_more_timeout_message (some s) chatId now).fired = true) :
    (send_load_more_timeout_message (some s) chatId now).states.map
        UserState.load_more_timestamp = some none := by
  rcases hst : s.load_more_timestamp with _ | t
  · simp [send_load_more_timeout_message, hst] at hf
  · simp only [send_load_more_timeout_message, hst] at hf ⊢
    by_cases h1 : LOAD_MORE_TIMEOUT ≤ now - t
    · by_cases h2 : chatId = 0
      · simp [h1, h2] at hf
      · simp [h1, h2]
    · simp [h1] at hf

/-- `send_paper_results` never assigns `load_more_message_id` a value. -/
theorem spr_keeps_message_id_none (s : UserState) (q : String) (ilm : Bool)
    (now : ℚ) (search : Nat → Option (List Paper))
    (h : s.load_more_message_id = none) :
    (send_paper_results s q ilm now search).finalState.load_more_message_id = none := by
  simp only [send_paper_results]
  set s1 := if ilm then s
            else cleanup_load_more_state { s with current_page := 0, query := some q }
    with hs1
  have h1 : s1.load_more_message_id = none := by
    rw [hs1]
    cases ilm <;> simp [cleanup_load_more_state, h]
  rcases search (results_per_page * (s1.current_page + 2)) with _ | papers
  · exact h1
  · dsimp only
    split
    · exact h1
    · split
      · exact h1
      · have h2 : (if ilm then s1
            else { s1 with total_results := papers.length }).load_more_message_id = none := by
          cases ilm <;> simp [h1]
        split
        · exact h2
        · exact h2

/-- C4 amended: `load_more_message_id` is never assigned a value: every
orchestrator operation maps a session whose `load_more_message_id` is null
to a result whose `load_more_message_id` is still null, and the clearing
operations (cleanup, a fired timeout) null both fields; the both-null-iff-
both-set equivalence fails only after an arming operation, which sets
`load_more_timestamp` while leaving `load_more_message_id` null. -/
theorem C4_amended (s : UserState) (q : String) (ilm : Bool) (now : ℚ)
    (search : Nat → Option (List Paper)) (messageId : Nat) (chatId : Int)
    (h : s.load_more_message_id = none) :
    (cleanup_load_more_state s).load_more_timestamp = none
    ∧ (cleanup_load_more_state s).load_more_message_id = none
    ∧ ((handle_load_more (some s) messageId).1.map
        UserState.load_more_message_id = some none)
    ∧ ((send_load_more_timeout_message (some s) chatId now).states.map
        UserState.load_more_message_id = some none)
    ∧ ((send_load_more_timeout_message (some s) chatId now).fired = true →
        (send_load_more_timeout_message (some s) chatId now).states.map
          UserState.load_more_timestamp = some none)
    ∧ (send_paper_results s q ilm now search).finalState.load_more_message_id = none := by
  refine ⟨rfl, rfl, ?_,
    timeout_keeps_message_id_none s chatId now h,
    timeout_fired_clears_timestamp s chatId now,
    spr_keeps_message_id_none s q ilm now search h⟩
  by_cases hq : py_truthy s.query = false
  · simp [handle_load_more, hq, h]
  · simp only [handle_load_more, hq]
    simp [h]

/-- C4 witness: the amended preservation at the fresh session `c4_state0`
and the concrete first-page serve that the counterexample uses. -/
theorem C4_amended_witness :
    (send_paper_results c4_state0 "q" false 0 c4_search).finalState.load_more_message_id = none :=
  (C4_amended c4_state0 "q" false 0 c4_search 5 1 rfl).2.2.2.2.2

/-- C5: with a truthy chat id, the scheduled timeout callback fires iff the
session's `load_more_timestamp` is still set and at least
`LOAD_MORE_TIMEOUT` (300 s) has elapsed since it was set; whenever it
fires it clears the timestamp, the message id and the job handle, and
saves the session; and a session that was disarmed (cleanup) never fires. -/
theorem C5_timeout (st : UserState) (chatId : Int) (now t : ℚ)
    (hchat : chatId ≠ 0) :
    (st.load_more_timestamp = none →
      (send_load_more_timeout_message (some st) chatId now).fired = false)
    ∧ (st.load_more_timestamp = some t →
        ((send_load_more_timeout_message (some st) chatId now).fired = true
          ↔ LOAD_MORE_TIMEOUT ≤ now - t))
    ∧ ((send_load_more_timeout_message (some st) chatId now).fired = true →
        (send_load_more_timeout_message (some st) chatId now).states
            = some { st with timeout_job := false, load_more_timestamp := none,
                             load_more_message_id := none }
        ∧ (send_load_more_timeout_message (some st) chatId now).saved = true)
    ∧ (send_load_more_timeout_message (some (cleanup_load_more_state st)) chatId now).fired
        = false := by
  refine ⟨?_, ?_, ?_, ?_⟩
  · intro hn
    simp [send_load_more_timeout_message, hn]
  · intro hs
    simp only [send_load_more_timeout_message, hs]
    by_cases h1 : LOAD_MORE_TIMEOUT ≤ now - t
    · simp [h1, hchat]
    · simp [h1]
  · intro hf
    rcases hst : st.load_more_timestamp with _ | t0
    · simp [send_load_more_timeout_message, hst] at hf
    · simp only [send_load_more_timeout_message, hst] at hf ⊢
      by_cases h1 : LOAD_MORE_TIMEOUT ≤ now - t0
      · simp [h1, hchat] at hf ⊢
      · simp [h1] at hf
  · simp [send_load_more_timeout_message, cleanup_load_more_state]

/-- A session armed at time 0 whose reminder fires at time 300. -/
def c5_state : UserState := ⟨none, some "q", 0, 10, some 0, none, true⟩

/-- C5 witness: at the concrete armed session `c5_state` the callback
fires exactly at 300 s, and the disarmed session never fires. -/
theorem C5_timeout_witness :
    (send_load_more_timeout_message (some c5_state) 1 300).fired = true
    ∧ (send_load_more_timeout_message (some (cleanup_load_more_state c5_state)) 1 300).fired
        = false := by
  have h := C5_timeout c5_state 1 300 0 (by decide)
  refine ⟨(h.2.1 rfl).mpr (by norm_num [LOAD_MORE_TIMEOUT]), h.2.2.2⟩

/-- The daily-quota float comparison holds exactly when the summed bytes
reach `2048 * 1024 * 1024` (the division by `1024 * 1024` is exact at
these magnitudes). -/
theorem quota_hit_eq (b : Nat) :
    quota_hit b = decide (2048 * 1024 * 1024 ≤ b) := by
  simp only [quota_hit, decide_eq_decide]
  rw [le_div_iff (by norm_num : (0 : ℚ) < 1024 * 1024)]
  constructor
  · intro h
    exact_mod_cast h
  · intro h
    exact_mod_cast h

/-- A request made at or past the quota is rejected before any other
check, with the ledger untouched and no provider call. -/
theorem download_quota_reject (ledger : List Nat) (states : Option UserState)
    (paperIndex : Nat) (search : Nat → Option (List Paper))
    (probe : String → Nat) (h : 2048 * 1024 * 1024 ≤ ledger.sum) :
    download_paper ledger states paperIndex search probe
      = ⟨.quotaLimit, ledger, false, 0⟩ := by
  rw [download_paper.eq_def, quota_hit_eq, if_pos (by simpa using h)]

/-- A successful send appends exactly the probed size of the sent URL to
the day's ledger. -/
theorem download_sent_ledger (ledger : List Nat) (states : Option UserState)
    (paperIndex : Nat) (search : Nat → Option (List Paper))
    (probe : String → Nat) (url : String)
    (hsent : (download_paper ledger states paperIndex search probe).outcome
      = .sent url) :
    (download_paper ledger states paperIndex search probe).ledger
      = ledger ++ [probe url] := by
  rw [download_paper.eq_def] at hsent ⊢
  by_cases hq : quota_hit ledger.sum
  · rw [if_pos hq] at hsent
    exact absurd hsent (by simp)
  · rw [if_neg hq] at hsent ⊢
    rcases states with _ | st
    · exact absurd hsent (by simp)
    · dsimp only at hsent ⊢
      by_cases h1 : py_truthy st.query = false
      · rw [if_pos h1] at hsent
        exact absurd hsent (by simp)
      · rw [if_neg h1] at hsent ⊢
        by_cases h2 : 0 < st.total_results ∧ st.total_results ≤ paperIndex
        · rw [if_pos h2] at hsent
          exact absurd hsent (by simp)
        · rw [if_neg h2] at hsent ⊢
          rcases hs : search (paperIndex + 1) with _ | papers
          · simp only [hs] at hsent
            exact absurd hsent (by simp)
          · simp only [hs] at hsent ⊢
            by_cases hidx : paperIndex < papers.length
            · rw [dif_pos hidx] at hsent ⊢
              by_cases h20 : TELEGRAM_FILE_SIZE_LIMIT
                  < probe (pdf_url (papers.get ⟨paperIndex, hidx⟩).link)
              · rw [if_pos h20] at hsent
                exact absurd hsent (by simp)
              · rw [if_neg h20] at hsent ⊢
                by_cases h100 : max_single_download_mb * 1024 * 1024
                    < probe (pdf_url (papers.get ⟨paperIndex, hidx⟩).link)
                · rw [if_pos h100] at hsent
                  exact absurd hsent (by simp)
                · rw [if_neg h100] at hsent ⊢
                  simp only [DLOutcome.sent.injEq] at hsent
                  dsimp only
                  rw [hsent]
            · rw [dif_neg hidx] at hsent
              exact absurd hsent (by simp)

/-- C6: a download request whose ledger already totals at least 2048 MB is
rejected with the quota message and appends nothing; a request starting
below the quota is never quota-rejected; and when a request succeeds it
appends its probed size, so once the cumulative total crosses the quota
the next request (whatever its parameters) is rejected. -/
theorem C6_quota (ledger : List Nat) (states states2 : Option UserState)
    (paperIndex paperIndex2 : Nat)
    (search search2 : Nat → Option (List Paper))
    (probe probe2 : String → Nat) (url : String) :
    (2048 * 1024 * 1024 ≤ ledger.sum →
      (download_paper ledger states paperIndex search probe).outcome = .quotaLimit
      ∧ (download_paper ledger states paperIndex search probe).ledger = ledger)
    ∧ (ledger.sum < 2048 * 1024 * 1024 →
        (download_paper ledger states paperIndex search probe).outcome ≠ .quotaLimit)
    ∧ ((download_paper ledger states paperIndex search probe).outcome = .sent url →
        (download_paper ledger states paperIndex search probe).ledger
          = ledger ++ [probe url]
        ∧ (2048 * 1024 * 1024 ≤ ledger.sum + probe url →
            (download_paper (ledger ++ [probe url]) states2 paperIndex2 search2 probe2).outcome
              = .quotaLimit
            ∧ (download_paper (ledger ++ [probe url]) states2 paperIndex2 search2 probe2).ledger
              = ledger ++ [probe url])) := by
  refine ⟨?_, ?_, ?_⟩
  · intro h
    rw [download_quota_reject ledger states paperIndex search probe h]
    exact ⟨rfl, rfl⟩
  · intro h
    rw [download_paper.eq_def, quota_hit_eq, if_neg (by simpa using Nat.not_le.mpr h)]
    rcases states with _ | st
    · simp
    · dsimp only
      split
      · simp
      · split
        · simp
        · rcases search (paperIndex + 1) with _ | papers
          · simp
          · dsimp only
            split
            · split
              · simp
              · split
                · simp
                · simp
            · simp
  · intro hsent
    have happ := download_sent_ledger ledger states paperIndex search probe url hsent
    refine ⟨happ, fun hcross => ?_⟩
    have hsum : 2048 * 1024 * 1024 ≤ (ledger ++ [probe url]).sum := by
      simpa using hcross
    rw [download_quota_reject (ledger ++ [probe url]) states2 paperIndex2 search2 probe2 hsum]
    exact ⟨rfl, rfl⟩

/-- A session with an active query and one known result. -/
def c6_state : UserState := ⟨none, some "q", 0, 1, none, none, false⟩

/-- A provider returning one paper for any requested count. -/
def c6_search : Nat → Option (List Paper) :=
  fun _ => some [⟨"T", "http://arxiv.org/abs/1"⟩]

/-- A size probe reporting 1 MB for every URL. -/
def c6_probe : String → Nat := fun _ => 1024 * 1024

/-- C6 witness: with 2047 MB already consumed, a 1 MB download succeeds and
pushes the total to 2048 MB, whereupon the next request is rejected. -/
theorem C6_quota_witness :
    (download_paper [2047 * 1024 * 1024] (some c6_state) 0 c6_search c6_probe).outcome
        = DLOutcome.sent "http://arxiv.org/pdf/1.pdf"
    ∧ (download_paper ([2047 * 1024 * 1024] ++ [c6_probe "http://arxiv.org/pdf/1.pdf"])
        (some c6_state) 0 c6_search c6_probe).outcome = DLOutcome.quotaLimit := by
  have hSent : (download_paper [2047 * 1024 * 1024] (some c6_state) 0 c6_search c6_probe).outcome
      = DLOutcome.sent "http://arxiv.org/pdf/1.pdf" := by
    rw [download_paper.eq_def, quota_hit_eq]
    norm_num [c6_state, c6_search, c6_probe, py_truthy,
      TELEGRAM_FILE_SIZE_LIMIT, max_single_download_mb]
    decide
  have h := C6_quota [2047 * 1024 * 1024] (some c6_state) (some c6_state) 0 0
    c6_search c6_search c6_probe c6_probe "http://arxiv.org/pdf/1.pdf"
  exact ⟨hSent, ((h.2.2 hSent).2 (by norm_num [c6_probe])).1⟩

/-- The paper of the C7 scenario, with its canonical `abs` entry link. -/
def c7_paper : Paper := ⟨"T", "http://arxiv.org/abs/2101.00001"⟩

/-- A session with an active query and no recorded total. -/
def c7_state : UserState := ⟨none, some "q", 0, 0, none, none, false⟩

/-- A provider returning the single C7 paper. -/
def c7_search : Nat → Option (List Paper) := fun _ => some [c7_paper]

/-- A size probe reporting 21 MB (over the platform ceiling, under the
single-file ceiling) for every URL. -/
def c7_probe : String → Nat := fun _ => 21 * 1024 * 1024

/-- C7 counterexample: a 21 MB probe is rejected over the platform ceiling
with a message whose URL is the derived PDF link, which differs from the
paper's canonical link — the claim's "directs the user to the canonical
link" does not hold; no ledger record is appended. -/
theorem C7_counterexample :
    (download_paper [] (some c7_state) 0 c7_search c7_probe).outcome
        = DLOutcome.fileTooLarge "http://arxiv.org/pdf/2101.00001.pdf"
    ∧ "http://arxiv.org/pdf/2101.00001.pdf" ≠ c7_paper.link
    ∧ (download_paper [] (some c7_state) 0 c7_search c7_probe).ledger = [] := by
  refine ⟨?_, by decide, ?_⟩
  · rw [download_paper.eq_def, quota_hit_eq]
    norm_num [c7_state, c7_search, c7_probe, py_truthy,
      TELEGRAM_FILE_SIZE_LIMIT, max_single_download_mb]
    decide
  · rw [download_paper.eq_def, quota_hit_eq]
    norm_num [c7_state, c7_search, c7_probe, py_truthy,
      TELEGRAM_FILE_SIZE_LIMIT, max_single_download_mb]
    decide

/-- C7 amended: a download whose probed size exceeds the platform transfer
ceiling (20 MB) — which includes every file over the 100 MB single-file
ceiling, since the platform check runs first — is rejected with the
"file too large" message carrying the derived PDF link of the paper (its
canonical link with "abs" replaced by "pdf" and ".pdf" appended), and no
ledger record is appended. -/
theorem C7_amended (ledger : List Nat) (st : UserState) (paperIndex : Nat)
    (search : Nat → Option (List Paper)) (probe : String → Nat)
    (papers : List Paper)
    (hq : ledger.sum < 2048 * 1024 * 1024)
    (hquery : py_truthy st.query = true)
    (hearly : ¬(0 < st.total_results ∧ st.total_results ≤ paperIndex))
    (hsearch : search (paperIndex + 1) = some papers)
    (hidx : paperIndex < papers.length) :
    (TELEGRAM_FILE_SIZE_LIMIT < probe (pdf_url (papers.get ⟨paperIndex, hidx⟩).link) →
      (download_paper ledger (some st) paperIndex search probe).outcome
          = DLOutcome.fileTooLarge (pdf_url (papers.get ⟨paperIndex, hidx⟩).link)
      ∧ (download_paper ledger (some st) paperIndex search probe).ledger = ledger)
    ∧ (max_single_download_mb * 1024 * 1024
          < probe (pdf_url (papers.get ⟨paperIndex, hidx⟩).link) →
      (download_paper ledger (some st) paperIndex search probe).outcome
          = DLOutcome.fileTooLarge (pdf_url (papers.get ⟨paperIndex, hidx⟩).link)
      ∧ (download_paper ledger (some st) paperIndex search probe).ledger = ledger) := by
  have hq' : ¬(quota_hit ledger.sum = true) := by
    rw [quota_hit_eq]
    simpa using Nat.not_le.mpr hq
  have h1 : ¬(py_truthy st.query = false) := by simp [hquery]
  have key : TELEGRAM_FILE_SIZE_LIMIT < probe (pdf_url (papers.get ⟨paperIndex, hidx⟩).link) →
      (download_paper ledger (some st) paperIndex search probe).outcome
          = DLOutcome.fileTooLarge (pdf_url (papers.get ⟨paperIndex, hidx⟩).link)
      ∧ (download_paper ledger (some st) paperIndex search probe).ledger = ledger := by
    intro h20
    rw [download_paper.eq_def, if_neg hq']
    dsimp only
    rw [if_neg h1, if_neg hearly]
    simp only [hsearch]
    rw [dif_pos hidx, if_pos h20]
    exact ⟨rfl, rfl⟩
  refine ⟨key, fun h100 => key ?_⟩
  have hlt : TELEGRAM_FILE_SIZE_LIMIT < max_single_download_mb * 1024 * 1024 := by
    norm_num [TELEGRAM_FILE_SIZE_LIMIT, max_single_download_mb]
  omega

/-- C7 witness: the amended statement at the concrete 21 MB scenario. -/
theorem C7_amended_witness :
    (download_paper [] (some c7_state) 0 c7_search c7_probe).outcome
        = DLOutcome.fileTooLarge (pdf_url c7_paper.link)
    ∧ (download_paper [] (some c7_state) 0 c7_search c7_probe).ledger = [] := by
  have h := C7_amended [] c7_state 0 c7_search c7_probe [c7_paper]
    (by norm_num) (by decide) (by decide) rfl (by decide)
  exact h.1 (by norm_num [c7_probe, TELEGRAM_FILE_SIZE_LIMIT])

/-- C8: whenever `send_paper_results` serves a page (first page or
continuation) it asks the provider for `results_per_page * (page + 2)`
results, hence at least `5 * (page + 2)` with the fixed page size of 5,
where `page` is the zero-based index of the page being served. -/
theorem C8_overfetch (s : UserState) (q : String) (ilm : Bool) (now : ℚ)
    (search : Nat → Option (List Paper)) :
    results_per_page = 5
    ∧ 5 * ((if ilm then s.current_page else 0) + 2)
        ≤ (send_paper_results s q ilm now search).requested := by
  refine ⟨rfl, ?_⟩
  cases ilm
  · have hbase : 5 * ((if false = true then s.current_page else 0) + 2)
        ≤ results_per_page *
          ((cleanup_load_more_state
              { s with current_page := 0, query := some q }).current_page + 2) := by
      simp [cleanup_load_more_state, results_per_page]
    simp only [send_paper_results, Bool.false_eq_true, if_false]
    repeat' split
    all_goals exact hbase
  · have hbase : 5 * ((if true = true then s.current_page else 0) + 2)
        ≤ results_per_page * (s.current_page + 2) := by
      simp [results_per_page]
    simp only [send_paper_results, if_true]
    repeat' split
    all_goals exact hbase

/-- C9 counterexample: the control character U+0001 survives sanitization
untouched, so "control characters are stripped" fails; here the sanitized
output equals the input and still contains a character with code below
32. -/
theorem C9_counterexample :
    sanitize_input ("a\x01b".data) = "a\x01b".data
    ∧ '\x01' ∈ sanitize_input ("a\x01b".data)
    ∧ ('\x01').toNat < 32 := by
  refine ⟨by decide, by decide, by decide⟩

/-- C9 amended: sanitization returns at most 500 code points and removes
every occurrence of the markup/injection characters `< > ; \x7b \x7d`
(and trims surrounding whitespace); other control characters are not
removed. -/
theorem C9_amended (s : List Char) :
    (sanitize_input s).length ≤ 500
    ∧ ∀ c ∈ sanitize_input s, sanitize_class.contains c = false := by
  constructor
  · exact List.length_take_le 500 _
  · intro c hc
    have hc2 := List.take_subset 500 _ hc
    have hm := List.mem_filter.mp hc2
    simpa using hm.2

/-- C9 witness: the amended statement at a concrete two-character input. -/
theorem C9_amended_witness :
    (sanitize_input ("ab".data)).length ≤ 500
    ∧ sanitize_class.contains 'a' = false := by
  have h := C9_amended ("ab".data)
  exact ⟨h.1, h.2 'a' (by decide)⟩

/-- C10: past the quota and session gates, the early out-of-range rejection
fires only when the stored `total_results` is strictly positive; with
`total_results = 0` every index proceeds to a fresh provider fetch of
`index + 1` results and is rejected as "no papers" exactly when the index
is not below the length of the fetched list. -/
theorem C10_download_index (ledger : List Nat) (st : UserState)
    (paperIndex : Nat) (search : Nat → Option (List Paper))
    (probe : String → Nat) (papers : List Paper)
    (hq : ledger.sum < 2048 * 1024 * 1024)
    (hquery : py_truthy st.query = true) :
    (0 < st.total_results → st.total_results ≤ paperIndex →
      (download_paper ledger (some st) paperIndex search probe).fetched = false
      ∧ (download_paper ledger (some st) paperIndex search probe).outcome
          = DLOutcome.noPapers
      ∧ (download_paper ledger (some st) paperIndex search probe).ledger = ledger)
    ∧ (st.total_results = 0 →
        (download_paper ledger (some st) paperIndex search probe).fetched = true
        ∧ (download_paper ledger (some st) paperIndex search probe).requested
            = paperIndex + 1
        ∧ (search (paperIndex + 1) = some papers →
            (papers.length ≤ paperIndex →
              (download_paper ledger (some st) paperIndex search probe).outcome
                  = DLOutcome.noPapers
              ∧ (download_paper ledger (some st) paperIndex search probe).ledger
                  = ledger)
            ∧ (paperIndex < papers.length →
              (download_paper ledger (some st) paperIndex search probe).outcome
                  ≠ DLOutcome.noPapers))) := by
  have hq' : ¬(quota_hit ledger.sum = true) := by
    rw [quota_hit_eq]
    simpa using Nat.not_le.mpr hq
  have h1 : ¬(py_truthy st.query = false) := by simp [hquery]
  constructor
  · intro htr hle
    rw [download_paper.eq_def, if_neg hq']
    dsimp only
    rw [if_neg h1, if_pos ⟨htr, hle⟩]
    exact ⟨rfl, rfl, rfl⟩
  · intro htr0
    have hearly : ¬(0 < st.total_results ∧ st.total_results ≤ paperIndex) := by
      simp [htr0]
    rw [download_paper.eq_def, if_neg hq']
    dsimp only
    rw [if_neg h1, if_neg hearly]
    rcases hs : search (paperIndex + 1) with _ | ps
    · simp only [hs]
      exact ⟨by simp, by simp, fun hsp => absurd hsp (by simp)⟩
    · simp only [hs]
      refine ⟨?_, ?_, fun hsp => ?_⟩
      · by_cases hidx : paperIndex < ps.length
        · rw [dif_pos hidx]
          split
          · rfl
          · split
            · rfl
            · rfl
        · rw [dif_neg hidx]
      · by_cases hidx : paperIndex < ps.length
        · rw [dif_pos hidx]
          split
          · rfl
          · split
            · rfl
            · rfl
        · rw [dif_neg hidx]
      · have hps : ps = papers := by simpa using hsp
        subst hps
        constructor
        · intro hlen
          rw [dif_neg (Nat.not_lt.mpr hlen)]
          exact ⟨rfl, rfl⟩
        · intro hlt
          rw [dif_pos hlt]
          split
          · simp
          · split
            · simp
            · simp

/-- A session with an active query and no recorded total. -/
def c10_state : UserState := ⟨none, some "q", 0, 0, none, none, false⟩

/-- A provider returning one paper for any requested count. -/
def c10_search : Nat → Option (List Paper) :=
  fun _ => some [⟨"T", "http://arxiv.org/abs/1"⟩]

/-- A size probe reporting 0 bytes for every URL. -/
def c10_probe : String → Nat := fun _ => 0

/-- C10 witness: with `total_results = 0` and index 1, the request fetches
`2` results from the provider and is only then rejected, because the
fetched list has a single entry. -/
theorem C10_download_index_witness :
    (download_paper [] (some c10_state) 1 c10_search c10_probe).fetched = true
    ∧ (download_paper [] (some c10_state) 1 c10_search c10_probe).requested = 2
    ∧ (download_paper [] (some c10_state) 1 c10_search c10_probe).outcome
        = DLOutcome.noPapers := by
  have h := C10_download_index [] c10_state 1 c10_search c10_probe
    [⟨"T", "http://arxiv.org/abs/1"⟩] (by norm_num) (by decide)
  have h2 := h.2 rfl
  exact ⟨h2.1, h2.2.1, ((h2.2.2 rfl).1 (by decide)).1⟩

end DocuBot
